import Mathlib

/-!
Verification of the e621dl synchronization pipeline (src/e621dl.py, src/lib/api.py).

The update loop, tag-group expansion, pagination accumulation, filter chain and
wrap-up are embedded shallowly from `src/e621dl.py`; the alias resolver from
`src/lib/api.py`.  External collaborators (the remote service, the filesystem,
the filename builder) are passed in as function parameters.  Parts of the
repository not present under `src/` (the bounded dedup cache from
`lib/support`, `lib/default.MAX_RESULTS`, `lib/downloader.multi_download`) are
modelled from the specification and marked as such on their definitions.
-/

namespace E621dl

/-- A content item as produced by the remote search endpoint
(`Post = namedtuple('Post', 'url id md5 ext tags')` in `src/lib/api.py`);
`tags` is the raw whitespace-separated tag string, split by the filter loop. -/
structure Post where
  url : String
  id : Nat
  md5 : String
  ext : String
  tags : String
  deriving DecidableEq, Repr

/-- An alias-index record (`UserTag = namedtuple('UserTag', 'aliasz_id name')`
in `src/lib/api.py`; the JSON field read into the first slot is `alias_id`). -/
structure UserTag where
  alias_id : Nat
  name : String
  deriving DecidableEq, Repr

/-- Helper for `pySplit`: scan the characters, `acc` holding the current
token's characters in reverse; a whitespace character ends the current token
(if any), and empty fragments between consecutive separators are dropped. -/
def pySplitAux : List Char → List Char → List String
  | [], acc => if acc.isEmpty then [] else [⟨acc.reverse⟩]
  | c :: cs, acc =>
    if c.isWhitespace then
      if acc.isEmpty then pySplitAux cs []
      else String.mk acc.reverse :: pySplitAux cs []
    else pySplitAux cs (c :: acc)

/-- Python's `str.split()` with no argument: split on runs of whitespace,
discarding empty fragments.  Used for `line.split()` and `item.tags.split()`. -/
def pySplit (s : String) : List String :=
  pySplitAux s.data []

/-- `list(set(a) & set(b)) == []` from the filter chain: the two lists share no
element. -/
def interEmpty (a b : List String) : Bool :=
  a.all (fun t => !(b.contains t))

/-- `get_alias` from `src/lib/api.py`, with the two remote endpoints passed in:
`aliasIndex tag` is the decoded response of `tag_alias/index.json?query=tag`
and `tagShow i` the `name` field of `tag/show.json?id=i`.  If the alias index
returns no record the function logs and returns the empty string; if the first
record's `name` equals the queried tag, the official name is fetched by
`alias_id` and returned; otherwise the tag is returned unchanged. -/
def get_alias (aliasIndex : String → List UserTag) (tagShow : Nat → String)
    (tag : String) : String :=
  match aliasIndex tag with
  | [] => ""
  | ut :: _ => if tag = ut.name then tagShow ut.alias_id else tag

/-- Tag-group expansion (`src/e621dl.py` lines 102-113).  `all_tags` is
`line.split()`.  With more than 5 tokens, `search_tags` is the joined first
five tokens (re-splitting that join recovers exactly those five tokens, since
tokens produced by `split` are nonempty and whitespace-free) and every token
not among them is aliased and appended to `extra_tags`; otherwise
`search_tags` is the whole line and `extra_tags` stays empty.  Both clauses
are represented by their token lists. -/
def expandGroup (aliasFn : String → String) (line : String) :
    List String × List String :=
  let all_tags := pySplit line
  if all_tags.length > 5 then
    (all_tags.take 5,
     (all_tags.filter (fun t => !((all_tags.take 5).contains t))).map aliasFn)
  else
    (all_tags, [])

/-- The pagination loop (`src/e621dl.py` lines 115-127), with the remote
modelled as the sequence of pages `get_posts` returns for pages 1, 2, 3, ….
An empty page stops accumulation without contributing; a full page (length
equal to `maxResults`) is appended and triggers a further fetch; a short
nonempty page is appended and stops accumulation. -/
def accumulate (maxResults : Nat) : List (List Post) → List Post
  | [] => []
  | page :: rest =>
    if page.isEmpty then []
    else if page.length = maxResults then page ++ accumulate maxResults rest
    else page

/-- Number of `get_posts` calls the pagination loop performs on the given page
sequence (for an exhausted sequence the loop still issues the fetch that
returns the empty page). -/
def pagesFetched (maxResults : Nat) : List (List Post) → Nat
  | [] => 1
  | page :: rest =>
    if page.isEmpty then 1
    else if page.length = maxResults then 1 + pagesFetched maxResults rest
    else 1

/-- The pagination loop with a fallible remote: `get_posts`
(`src/lib/api.py` lines 14-29) performs the HTTP request and JSON decode with
no exception handler, and the `while accumulating` loop (`src/e621dl.py`
lines 115-127) has none either, so a transport failure on any fetch
propagates as an exception out of the loop, discarding the pages already
accumulated; only a successful page is inspected for emptiness/fullness. -/
def accumulateE (maxResults : Nat) :
    List (Except String (List Post)) → Except String (List Post)
  | [] => .ok []
  | page :: rest =>
    match page with
    | .error e => .error e
    | .ok p =>
      if p.isEmpty then .ok []
      else if p.length = maxResults then
        match accumulateE maxResults rest with
        | .error e => .error e
        | .ok more => .ok (p ++ more)
      else .ok p

/-- The `for line in TAGS` loop (`src/e621dl.py` lines 88-179) with a fallible
remote: each group's accumulation runs in turn and an uncaught exception in
any of them propagates out of the `for` loop, so no later group is processed
and the run never reaches the download or wrap-up phases. -/
def runGroupsE (maxResults : Nat) :
    List (List (Except String (List Post))) → Except String (List (List Post))
  | [] => .ok []
  | g :: gs =>
    match accumulateE maxResults g with
    | .error e => .error e
    | .ok items =>
      match runGroupsE maxResults gs with
      | .error e => .error e
      | .ok later => .ok (items :: later)

/-- `n` distinct posts, for concrete pagination scenarios. -/
def mkPosts (n : Nat) : List Post :=
  (List.range n).map (fun i => ⟨"u", i, "m", "e", ""⟩)

/-- The disposition of one candidate item in the filter chain
(`src/e621dl.py` lines 144-173). -/
inductive Disposition where
  | missingRequiredTag
  | blacklisted
  | alreadyOnDisk
  | alreadyCached
  | approved
  deriving DecidableEq, Repr

/-- The if/elif filter chain (`src/e621dl.py` lines 144-173) for one item:
`allTagsLen` is `len(all_tags)`, `fileExists` the result of
`os.path.isfile(download_directory + filename)`, `cache` the current dedup
cache contents.  The order of the checks is that of the source. -/
def filterDecide (allTagsLen : Nat) (extra_tags aliasedBlacklist : List String)
    (fileExists : Bool) (cache : List String) (item : Post) : Disposition :=
  let currentTags := pySplit item.tags
  if allTagsLen > 5 && interEmpty extra_tags currentTags then
    .missingRequiredTag
  else if !interEmpty aliasedBlacklist currentTags then
    .blacklisted
  else if fileExists then
    .alreadyOnDisk
  else if cache.contains item.md5 then
    .alreadyCached
  else
    .approved

/-- Modelled from the spec: the bounded dedup cache lives in `lib/support`
(`get_cache` / `CACHE.push`), which is not under `src/`.  Spec §3 DedupCache:
an insertion-ordered set of fingerprints with fixed capacity; inserting when
full evicts the oldest entry (FIFO by insertion order).  The list holds
fingerprints oldest first. -/
def cachePush (capacity : Nat) (cache : List String) (fp : String) :
    List String :=
  let c := cache ++ [fp]
  if capacity < c.length then c.drop (c.length - capacity) else c

/-- The run-scoped mutable state touched by the per-item filter loop: the five
per-group counters (`src/e621dl.py` lines 94-98), the global
`URL_AND_NAME_LIST` (line 86) and the global dedup cache. -/
structure GroupState where
  links_missing_tags : Nat
  links_blacklisted : Nat
  links_on_disk : Nat
  links_in_cache : Nat
  will_download : Nat
  url_and_name_list : List (String × String)
  cache : List String
  deriving DecidableEq, Repr

/-- Fresh per-group counters over inherited global state (`src/e621dl.py`
lines 94-99). -/
def initGroupState (cache : List String)
    (url_and_name_list : List (String × String)) : GroupState :=
  ⟨0, 0, 0, 0, 0, url_and_name_list, cache⟩

/-- One iteration of the per-item filter loop (`src/e621dl.py` lines 133-173):
compute the filename, run the filter chain, bump the matching counter; on
approval also append `(item.url, download_directory + filename)` to the
download list and push `item.md5` into the cache.  `isFile` is the
filesystem's `os.path.isfile` and `safeFilename` the (external)
`support.safe_filename(line, item, CONFIG)`. -/
def processItem (capacity : Nat) (line : String) (allTagsLen : Nat)
    (extra_tags aliasedBlacklist : List String) (downloadDir : String)
    (isFile : String → Bool) (safeFilename : String → Post → String)
    (st : GroupState) (item : Post) : GroupState :=
  let filename := safeFilename line item
  match filterDecide allTagsLen extra_tags aliasedBlacklist
      (isFile (downloadDir ++ filename)) st.cache item with
  | .missingRequiredTag =>
      { st with links_missing_tags := st.links_missing_tags + 1 }
  | .blacklisted =>
      { st with links_blacklisted := st.links_blacklisted + 1 }
  | .alreadyOnDisk =>
      { st with links_on_disk := st.links_on_disk + 1 }
  | .alreadyCached =>
      { st with links_in_cache := st.links_in_cache + 1 }
  | .approved =>
      { st with
          will_download := st.will_download + 1,
          url_and_name_list :=
            st.url_and_name_list ++ [(item.url, downloadDir ++ filename)],
          cache := cachePush capacity st.cache item.md5 }

/-- The external collaborators of one run: the two alias endpoints, the search
endpoint (as the page sequence it returns for a given search clause), the
filesystem query, the filename builder, and the per-task download outcome. -/
structure Env where
  aliasIndex : String → List UserTag
  tagShow : Nat → String
  pages : List String → List (List Post)
  isFile : String → Bool
  safeFilename : String → Post → String
  downloadOk : String × String → Bool

/-- Processing of one line of the tag file (`src/e621dl.py` lines 88-179):
expand the group, accumulate candidates by pagination, then filter each
candidate, threading the shared cache and global download list.  (When the
accumulated list is empty the source skips the `if len(potential_downloads) >
0` block, which a fold over the empty list reproduces.) -/
def processLine (env : Env) (capacity : Nat) (maxResults : Nat)
    (aliasedBlacklist : List String) (downloadDir : String)
    (cache : List String) (url_and_name_list : List (String × String))
    (line : String) : GroupState :=
  let eg := expandGroup (get_alias env.aliasIndex env.tagShow) line
  let potential_downloads := accumulate maxResults (env.pages eg.1)
  potential_downloads.foldl
    (processItem capacity line (pySplit line).length eg.2 aliasedBlacklist
      downloadDir env.isFile env.safeFilename)
    (initGroupState cache url_and_name_list)

/-- The whole update phase (`src/e621dl.py` lines 86-179): fold `processLine`
over the tag file, threading the cache and the global download list. -/
def runUpdate (env : Env) (capacity : Nat) (maxResults : Nat)
    (aliasedBlacklist : List String) (downloadDir : String)
    (cache0 : List String) (tagLines : List String) :
    List String × List (String × String) :=
  tagLines.foldl
    (fun acc line =>
      let g := processLine env capacity maxResults aliasedBlacklist
        downloadDir acc.1 acc.2 line
      (g.cache, g.url_and_name_list))
    (cache0, [])

/-- Modelled from the spec: `multi_download` lives in `lib/downloader`, which
is not under `src/`.  Spec §4.5/§7: every task is attempted, a failed task is
reported individually, and one failure neither aborts sibling tasks nor
raises out of the batch; the batch completes and returns control.  Modelled
as the per-task outcome list. -/
def multi_download (downloadOk : String × String → Bool)
    (tasks : List (String × String)) : List Bool :=
  tasks.map downloadOk

/-- The configuration fields the core reads and writes
(`CONFIG` in `src/e621dl.py`); `last_run` is held as a proleptic ordinal as
in `datetime.date.toordinal`. -/
structure Config where
  download_directory : String
  parallel_downloads : Nat
  cache_size : Nat
  last_run : Int
  deriving DecidableEq, Repr

/-- Result of a full session: the persisted configuration, the list handed to
`multi_download`, and the per-task download outcomes. -/
structure SessionResult where
  config : Config
  downloadsStarted : List (String × String)
  outcomes : List Bool
  cache : List String
  deriving DecidableEq, Repr

/-- A full session past initialization (`src/e621dl.py` lines 72-208): alias
the blacklist, run the update over every tag line, hand the accumulated
`URL_AND_NAME_LIST` to `multi_download`, then set `last_run` to yesterday
(`date.fromordinal(date.today().toordinal() - 1)`) and persist the config.
`todayOrdinal` is `date.today().toordinal()` at wrap-up time. -/
def runSession (env : Env) (config : Config) (maxResults : Nat)
    (blacklist : List String) (cache0 : List String)
    (tagLines : List String) (todayOrdinal : Int) : SessionResult :=
  let aliasedBlacklist :=
    blacklist.map (get_alias env.aliasIndex env.tagShow)
  let upd := runUpdate env config.cache_size maxResults aliasedBlacklist
    config.download_directory cache0 tagLines
  let outcomes := multi_download env.downloadOk upd.2
  { config := { config with last_run := todayOrdinal - 1 },
    downloadsStarted := upd.2,
    outcomes := outcomes,
    cache := upd.1 }

/-! ## Helper lemmas -/

theorem filter_not_mem_take (l : List String) (k : Nat) (hn : l.Nodup) :
    l.filter (fun t => !((l.take k).contains t)) = l.drop k := by
  have hsplit : l.filter (fun t => !((l.take k).contains t)) =
      (l.take k ++ l.drop k).filter (fun t => !((l.take k).contains t)) := by
    rw [List.take_append_drop]
  have h1 : (l.take k).filter (fun t => !((l.take k).contains t)) = [] := by
    rw [List.filter_eq_nil_iff]
    intro a ha
    simp [ha]
  have h2 : (l.drop k).filter (fun t => !((l.take k).contains t)) =
      l.drop k := by
    rw [List.filter_eq_self]
    intro a ha
    have hnot : a ∉ l.take k := fun hmem =>
      (List.disjoint_take_drop hn le_rfl) hmem ha
    simpa using hnot
  rw [hsplit, List.filter_append, h1, h2, List.nil_append]

/-- Exact characterization of each disposition of the filter chain, matching
its if/elif structure. -/
theorem filterDecide_iff (n : Nat) (extra bl : List String) (fe : Bool)
    (cache : List String) (item : Post) :
    (filterDecide n extra bl fe cache item = .missingRequiredTag ↔
      (5 < n ∧ interEmpty extra (pySplit item.tags) = true)) ∧
    (filterDecide n extra bl fe cache item = .blacklisted ↔
      (¬(5 < n ∧ interEmpty extra (pySplit item.tags) = true) ∧
        interEmpty bl (pySplit item.tags) = false)) ∧
    (filterDecide n extra bl fe cache item = .alreadyOnDisk ↔
      (¬(5 < n ∧ interEmpty extra (pySplit item.tags) = true) ∧
        interEmpty bl (pySplit item.tags) = true ∧ fe = true)) ∧
    (filterDecide n extra bl fe cache item = .alreadyCached ↔
      (¬(5 < n ∧ interEmpty extra (pySplit item.tags) = true) ∧
        interEmpty bl (pySplit item.tags) = true ∧ fe = false ∧
        cache.contains item.md5 = true)) ∧
    (filterDecide n extra bl fe cache item = .approved ↔
      (¬(5 < n ∧ interEmpty extra (pySplit item.tags) = true) ∧
        interEmpty bl (pySplit item.tags) = true ∧ fe = false ∧
        cache.contains item.md5 = false)) := by
  simp only [filterDecide]
  by_cases h5 : 5 < n <;>
    rcases he : interEmpty extra (pySplit item.tags) with _ | _ <;>
      rcases hb : interEmpty bl (pySplit item.tags) with _ | _ <;>
        rcases hf : fe with _ | _ <;>
          rcases hc : cache.contains item.md5 with _ | _ <;>
            simp_all <;>
              (have h5x : ¬(5 < n) := by omega
               simp [h5x])

/-! ## C1 — filter precedence -/

/-- C1: the filter chain evaluates its checks in the strict order
MissingRequiredTag, Blacklisted, AlreadyOnDisk, AlreadyCached, Approved and
the first matching reason wins; in particular an item simultaneously missing
a required tag and carrying a blacklisted tag is reported as
MissingRequiredTag, never Blacklisted. -/
theorem C1_filter_precedence (n : Nat) (extra bl : List String) (fe : Bool)
    (cache : List String) (item : Post) :
    (filterDecide n extra bl fe cache item = .missingRequiredTag ↔
      (5 < n ∧ interEmpty extra (pySplit item.tags) = true)) ∧
    (filterDecide n extra bl fe cache item = .blacklisted ↔
      (¬(5 < n ∧ interEmpty extra (pySplit item.tags) = true) ∧
        interEmpty bl (pySplit item.tags) = false)) ∧
    (filterDecide n extra bl fe cache item = .alreadyOnDisk ↔
      (¬(5 < n ∧ interEmpty extra (pySplit item.tags) = true) ∧
        interEmpty bl (pySplit item.tags) = true ∧ fe = true)) ∧
    (filterDecide n extra bl fe cache item = .alreadyCached ↔
      (¬(5 < n ∧ interEmpty extra (pySplit item.tags) = true) ∧
        interEmpty bl (pySplit item.tags) = true ∧ fe = false ∧
        cache.contains item.md5 = true)) ∧
    (filterDecide n extra bl fe cache item = .approved ↔
      (¬(5 < n ∧ interEmpty extra (pySplit item.tags) = true) ∧
        interEmpty bl (pySplit item.tags) = true ∧ fe = false ∧
        cache.contains item.md5 = false)) ∧
    ((5 < n ∧ interEmpty extra (pySplit item.tags) = true) →
      interEmpty bl (pySplit item.tags) = false →
      filterDecide n extra bl fe cache item = .missingRequiredTag) := by
  obtain ⟨h1, h2, h3, h4, h5⟩ := filterDecide_iff n extra bl fe cache item
  exact ⟨h1, h2, h3, h4, h5, fun hm _ => h1.mpr hm⟩

/-- Witness for C1 at a concrete item that is both missing the required tag
`x` and carrying the blacklisted tag `b`. -/
theorem C1_filter_precedence_w :
    filterDecide 6 ["x"] ["b"] false [] ⟨"u", 1, "m", "e", "b q"⟩ =
      .missingRequiredTag :=
  (C1_filter_precedence 6 ["x"] ["b"] false [] ⟨"u", 1, "m", "e", "b q"⟩).2.2.2.2.2
    (by decide) (by decide)

/-! ## C2 — pagination termination -/

/-- C2: accumulation queries pages in order, stops exactly on a page shorter
than `maxResults` (including an empty one), continues on a full page, and
returns the concatenation of the fetched pages; with page sizes 50, 50, 37
and page size 50 it returns 137 items and stops after page 3. -/
theorem C2_pagination_termination (maxResults : Nat) (p : List Post)
    (rest : List (List Post)) :
    (p.length < maxResults →
      accumulate maxResults (p :: rest) = p ∧
      pagesFetched maxResults (p :: rest) = 1) ∧
    (p ≠ [] → p.length = maxResults →
      accumulate maxResults (p :: rest) = p ++ accumulate maxResults rest ∧
      pagesFetched maxResults (p :: rest) = 1 + pagesFetched maxResults rest) ∧
    accumulate maxResults [] = [] ∧
    (∀ (p1 p2 p3 : List Post) (later : List (List Post)),
      p1.length = 50 → p2.length = 50 → p3.length = 37 →
      accumulate 50 (p1 :: p2 :: p3 :: later) = p1 ++ p2 ++ p3 ∧
      (accumulate 50 (p1 :: p2 :: p3 :: later)).length = 137 ∧
      pagesFetched 50 (p1 :: p2 :: p3 :: later) = 3) := by
  refine ⟨?_, ?_, rfl, ?_⟩
  · intro hlt
    rcases p with _ | ⟨a, p'⟩
    · simp [accumulate, pagesFetched]
    · simp only [List.length_cons] at hlt
      have hne : ¬(p'.length + 1 = maxResults) := by omega
      simp [accumulate, pagesFetched, hne]
  · intro hne hlen
    rcases p with _ | ⟨a, p'⟩
    · exact absurd rfl hne
    · simp only [List.length_cons] at hlen
      simp [accumulate, pagesFetched, hlen]
  · intro p1 p2 p3 later h1 h2 h3
    rcases p1 with _ | ⟨a1, q1⟩; · simp at h1
    rcases p2 with _ | ⟨a2, q2⟩; · simp at h2
    rcases p3 with _ | ⟨a3, q3⟩; · simp at h3
    simp only [List.length_cons] at h1 h2 h3
    have hq1 : q1.length = 49 := by omega
    have hq2 : q2.length = 49 := by omega
    have hq3 : ¬(q3.length = 49) := by omega
    have hacc : accumulate 50 ((a1 :: q1) :: (a2 :: q2) :: (a3 :: q3) :: later)
        = (a1 :: q1) ++ (a2 :: q2) ++ (a3 :: q3) := by
      simp [accumulate, hq1, hq2, hq3, List.append_assoc]
    refine ⟨hacc, ?_, ?_⟩
    · rw [hacc]
      simp only [List.length_append, List.length_cons]
      omega
    · simp [pagesFetched, hq1, hq2, hq3]

/-- Witness for C2 on concrete pages of sizes 50, 50, 37. -/
theorem C2_pagination_termination_w :
    accumulate 50 [mkPosts 50, mkPosts 50, mkPosts 37] =
      mkPosts 50 ++ mkPosts 50 ++ mkPosts 37 ∧
    (accumulate 50 [mkPosts 50, mkPosts 50, mkPosts 37]).length = 137 ∧
    pagesFetched 50 [mkPosts 50, mkPosts 50, mkPosts 37] = 3 :=
  (C2_pagination_termination 50 (mkPosts 37) []).2.2.2
    (mkPosts 50) (mkPosts 50) (mkPosts 37) []
    (by simp [mkPosts]) (by simp [mkPosts]) (by simp [mkPosts])

/-! ## C3 — tag-group expansion -/

/-- C3: a line of at most 5 tokens expands to the full token list with no
extra tags; a longer line expands to the first 5 tokens (order preserved)
plus the aliased forms of every token outside that prefix; a line of 7
distinct tokens yields 5 search tags and 2 extra tags. -/
theorem C3_tag_group_expansion (aliasFn : String → String) (line : String) :
    ((pySplit line).length ≤ 5 →
      expandGroup aliasFn line = (pySplit line, [])) ∧
    (5 < (pySplit line).length →
      (expandGroup aliasFn line).1 = (pySplit line).take 5 ∧
      (expandGroup aliasFn line).2 =
        ((pySplit line).filter
          (fun t => !(((pySplit line).take 5).contains t))).map aliasFn) ∧
    ((pySplit line).length = 7 → (pySplit line).Nodup →
      (expandGroup aliasFn line).1.length = 5 ∧
      (expandGroup aliasFn line).2.length = 2) := by
  refine ⟨?_, ?_, ?_⟩
  · intro hle
    have : ¬(pySplit line).length > 5 := by omega
    simp [expandGroup, this]
  · intro hgt
    simp [expandGroup, hgt]
  · intro h7 hnodup
    have hgt : (pySplit line).length > 5 := by omega
    simp only [expandGroup, if_pos hgt]
    constructor
    · simp [List.length_take, h7]
    · rw [List.length_map, filter_not_mem_take _ _ hnodup, List.length_drop, h7]

/-- Witness for C3 on a concrete 7-distinct-token line. -/
theorem C3_tag_group_expansion_w :
    (expandGroup (fun t => t) "a b c d e f g").1.length = 5 ∧
    (expandGroup (fun t => t) "a b c d e f g").2.length = 2 :=
  (C3_tag_group_expansion (fun t => t) "a b c d e f g").2.2
    (by decide) (by decide)

/-! ## C4 — condition of the MissingRequiredTag disposition -/

/-- Counterexample to C4: the line `"a b c d e a"` has 6 tokens but every
token lies in the 5-token prefix, so its `extra_tags` is empty — yet an item
is still skipped with MissingRequiredTag, because the code guards the check
with `len(all_tags) > 5`, not with non-emptiness of `extra_tags`. -/
theorem C4_missing_tag_cex :
    (expandGroup (fun t => t) "a b c d e a").2 = [] ∧
    filterDecide (pySplit "a b c d e a").length
      (expandGroup (fun t => t) "a b c d e a").2 [] false []
      ⟨"u", 1, "m", "e", "a b c d e"⟩ = .missingRequiredTag := by
  exact ⟨rfl, rfl⟩

/-- C4 (amended): MissingRequiredTag is reported exactly when the raw line
has more than 5 whitespace tokens and `extra_tags` has empty intersection
with the item's tags; with at most 5 tokens `extra_tags` is empty and no item
is ever skipped with MissingRequiredTag, but a line of more than 5 tokens
whose `extra_tags` is empty (e.g. all overflow tokens duplicate the prefix)
skips every item with MissingRequiredTag. -/
theorem C4_missing_tag_condition (aliasFn : String → String) (line : String)
    (bl : List String) (fe : Bool) (cache : List String) (item : Post) :
    (filterDecide (pySplit line).length (expandGroup aliasFn line).2 bl fe
        cache item = .missingRequiredTag ↔
      (5 < (pySplit line).length ∧
        interEmpty (expandGroup aliasFn line).2 (pySplit item.tags) = true)) ∧
    ((pySplit line).length ≤ 5 →
      (expandGroup aliasFn line).2 = [] ∧
      filterDecide (pySplit line).length (expandGroup aliasFn line).2 bl fe
        cache item ≠ .missingRequiredTag) ∧
    (5 < (pySplit line).length → (expandGroup aliasFn line).2 = [] →
      filterDecide (pySplit line).length (expandGroup aliasFn line).2 bl fe
        cache item = .missingRequiredTag) := by
  refine ⟨(filterDecide_iff _ _ _ _ _ _).1, ?_, ?_⟩
  · intro hle
    have hnot : ¬(pySplit line).length > 5 := by omega
    have hemp : (expandGroup aliasFn line).2 = [] := by
      simp [expandGroup, hnot]
    refine ⟨hemp, fun hmiss => ?_⟩
    have := ((filterDecide_iff _ _ _ _ _ _).1.mp hmiss).1
    omega
  · intro hgt hemp
    refine (filterDecide_iff _ _ _ _ _ _).1.mpr ⟨hgt, ?_⟩
    rw [hemp]
    rfl

/-- Witness for C4 (amended) on the duplicate-token line. -/
theorem C4_missing_tag_condition_w :
    filterDecide (pySplit "a b c d e a").length
      (expandGroup (fun t => t) "a b c d e a").2 ["bad"] false []
      ⟨"u", 2, "n", "e", "x y"⟩ = .missingRequiredTag :=
  (C4_missing_tag_condition (fun t => t) "a b c d e a" ["bad"] false []
      ⟨"u", 2, "n", "e", "x y"⟩).2.2 (by decide) (by decide)

/-! ## C7 — unknown tags -/

/-- Tokens produced by `pySplitAux` are nonempty strings. -/
theorem pySplitAux_ne_empty (cs : List Char) :
    ∀ (acc : List Char) (t : String), t ∈ pySplitAux cs acc → t ≠ "" := by
  induction cs with
  | nil =>
    intro acc t ht hemp
    by_cases h : acc.isEmpty
    · simp [pySplitAux, h] at ht
    · simp [pySplitAux, h] at ht
      subst ht
      have : acc = [] := by simpa using congrArg String.data hemp
      simp [this] at h
  | cons c cs ih =>
    intro acc t ht
    by_cases hw : c.isWhitespace
    · by_cases h : acc.isEmpty
      · simp only [pySplitAux, hw, if_pos h, if_true] at ht
        exact ih [] t ht
      · simp only [pySplitAux, hw, if_neg h, if_true] at ht
        rcases List.mem_cons.mp ht with h0 | h0
        · intro hemp
          subst h0
          have : acc = [] := by simpa using congrArg String.data hemp
          simp [this] at h
        · exact ih [] t h0
    · simp only [pySplitAux, hw, if_false] at ht
      exact ih (c :: acc) t ht

/-- The empty string is never a token of a Python `split()`. -/
theorem not_empty_mem_pySplit (s : String) : "" ∉ pySplit s :=
  fun h => pySplitAux_ne_empty s.data [] "" h rfl

/-- Prepending the empty string to a tag list does not change its
intersection test against a split tag list. -/
theorem interEmpty_cons_empty (a cur : List String) (h : "" ∉ cur) :
    interEmpty ("" :: a) cur = interEmpty a cur := by
  simp [interEmpty, h]

/-- Counterexample to C7: in the 6-token line `"a b c d e zz"` the tag `zz`
is unknown to the alias index (the lookup returns no record, so `get_alias`
yields `""`); an item carrying all five searched tags is nevertheless skipped
with MissingRequiredTag, while with the unknown tag absent (the 5-token line)
the same item is approved — so the unknown tag does cause a
MissingRequiredTag skip. -/
theorem C7_unknown_tag_cex :
    get_alias (fun t => if t = "zz" then [] else [⟨1, String.append t "0"⟩])
      (fun _ => "off") "zz" = "" ∧
    (expandGroup
      (get_alias (fun t => if t = "zz" then [] else [⟨1, String.append t "0"⟩])
        (fun _ => "off")) "a b c d e zz").2 = [""] ∧
    filterDecide (pySplit "a b c d e zz").length
      (expandGroup
        (get_alias (fun t => if t = "zz" then [] else [⟨1, String.append t "0"⟩])
          (fun _ => "off")) "a b c d e zz").2
      [] false [] ⟨"u", 1, "m", "e", "a b c d e"⟩ = .missingRequiredTag ∧
    filterDecide (pySplit "a b c d e").length
      (expandGroup
        (get_alias (fun t => if t = "zz" then [] else [⟨1, String.append t "0"⟩])
          (fun _ => "off")) "a b c d e").2
      [] false [] ⟨"u", 1, "m", "e", "a b c d e"⟩ = .approved := by
  exact ⟨rfl, rfl, rfl, rfl⟩

/-- C7 (amended): an unknown tag is non-fatal — `get_alias` returns the empty
string instead of raising — and the empty string alias is inert in every
intersection test (split tokens are nonempty, so it never matches an item
tag, never causes a Blacklisted skip and never flips the extra-tag
intersection); but the unknown tag still counts toward the line's 5-token
overflow threshold, so its presence can still cause MissingRequiredTag
skips. -/
theorem C7_unknown_tag_inert (aliasIndex : String → List UserTag)
    (tagShow : Nat → String) (tag : String) (n : Nat)
    (extra bl : List String) (fe : Bool) (cache : List String) (item : Post) :
    (aliasIndex tag = [] → get_alias aliasIndex tagShow tag = "") ∧
    "" ∉ pySplit item.tags ∧
    filterDecide n ("" :: extra) bl fe cache item =
      filterDecide n extra bl fe cache item ∧
    filterDecide n extra ("" :: bl) fe cache item =
      filterDecide n extra bl fe cache item ∧
    (5 < n → interEmpty extra (pySplit item.tags) = true →
      filterDecide n extra bl fe cache item = .missingRequiredTag) := by
  have hne : "" ∉ pySplit item.tags := not_empty_mem_pySplit item.tags
  refine ⟨fun h => by simp [get_alias, h], hne, ?_, ?_, ?_⟩
  · simp only [filterDecide, interEmpty_cons_empty _ _ hne]
  · simp only [filterDecide, interEmpty_cons_empty _ _ hne]
  · intro h5 hint
    exact (filterDecide_iff _ _ _ _ _ _).1.mpr ⟨h5, hint⟩

/-- Witness for C7 (amended): the unknown tag `zz` resolves to `""`, and
`""` in the extra tags or blacklist leaves the disposition unchanged. -/
theorem C7_unknown_tag_inert_w :
    get_alias (fun t => if t = "zz" then [] else [⟨1, String.append t "0"⟩])
      (fun _ => "off") "zz" = "" ∧
    filterDecide 3 [""] ["b"] false [] ⟨"u", 1, "m", "e", "b q"⟩ =
      filterDecide 3 [] ["b"] false [] ⟨"u", 1, "m", "e", "b q"⟩ ∧
    filterDecide 6 ["x"] [] false [] ⟨"u", 1, "m", "e", "b q"⟩ =
      .missingRequiredTag := by
  obtain ⟨h1, _, h3, _, h5⟩ := C7_unknown_tag_inert
    (fun t => if t = "zz" then [] else [⟨1, String.append t "0"⟩])
    (fun _ => "off") "zz" 3 [] ["b"] false [] ⟨"u", 1, "m", "e", "b q"⟩
  obtain ⟨_, _, _, _, h5'⟩ := C7_unknown_tag_inert
    (fun t => if t = "zz" then [] else [⟨1, String.append t "0"⟩])
    (fun _ => "off") "zz" 6 ["x"] [] false [] ⟨"u", 1, "m", "e", "b q"⟩
  exact ⟨h1 rfl, h3, h5' (by decide) (by decide)⟩

/-! ## C8 — transport failure during pagination -/

/-- Counterexample to C8: with page size 50, page 1 succeeding with 50 items
and page 2 failing with a transport error, accumulation does not return the
50 already-found candidates — the uncaught exception discards them — and the
whole run (here a second tag group awaiting processing) is terminated, not
just that group's accumulation. -/
theorem C8_transport_cex :
    accumulateE 50 [Except.ok (mkPosts 50), Except.error "transport"] =
      Except.error "transport" ∧
    runGroupsE 50
      [[Except.ok (mkPosts 50), Except.error "transport"],
       [Except.ok [⟨"v", 1, "m", "e", ""⟩]]] = Except.error "transport" := by
  exact ⟨rfl, rfl⟩

/-- C8 (amended): a transport failure is surfaced distinctly from an
exhausted page (an exception, never equal to an empty success), but it is not
contained to the failing group: the exception propagates out of the
accumulation loop, discarding that group's already-found candidates, and out
of the per-group loop, terminating the whole run. -/
theorem C8_transport_failure (m : Nat) (e : String) (p : List Post)
    (rest : List (Except String (List Post)))
    (g : List (Except String (List Post)))
    (gs : List (List (Except String (List Post)))) :
    accumulateE m (Except.error e :: rest) = Except.error e ∧
    accumulateE m (Except.ok [] :: rest) = Except.ok [] ∧
    (∀ res : List Post,
      (Except.error e : Except String (List Post)) ≠ Except.ok res) ∧
    (p ≠ [] → p.length = m →
      accumulateE m (Except.ok p :: Except.error e :: rest) =
        Except.error e) ∧
    (accumulateE m g = Except.error e →
      runGroupsE m (g :: gs) = Except.error e) := by
  refine ⟨rfl, by simp [accumulateE], fun res => by simp, ?_, ?_⟩
  · intro hne hlen
    have hemp : p.isEmpty = false := by
      rcases p with _ | _
      · exact absurd rfl hne
      · rfl
    simp [accumulateE, hemp, hlen]
  · intro herr
    simp [runGroupsE, herr]

/-- Witness for C8 (amended) at a concrete full first page and failing second
fetch. -/
theorem C8_transport_failure_w :
    accumulateE 2 [Except.ok (mkPosts 2), Except.error "te"] =
      Except.error "te" ∧
    runGroupsE 2 [[Except.error "te"], [Except.ok []]] = Except.error "te" :=
  ⟨(C8_transport_failure 2 "te" (mkPosts 2) [] [] []).2.2.2.1
      (by decide) (by decide),
   (C8_transport_failure 2 "te" (mkPosts 2) [] [Except.error "te"]
      [[Except.ok []]]).2.2.2.2 rfl⟩

/-! ## C9 — alias resolution -/

/-- C9: when the alias index returns a record whose `name` equals the queried
tag, `get_alias` performs the second lookup by the record's alias identifier
and returns the retrieved replacement name; when the record's `name` differs,
the original tag is returned unchanged. -/
theorem C9_get_alias (aliasIndex : String → List UserTag)
    (tagShow : Nat → String) (tag : String) (ut : UserTag)
    (rest : List UserTag) (h : aliasIndex tag = ut :: rest) :
    (ut.name = tag → get_alias aliasIndex tagShow tag = tagShow ut.alias_id) ∧
    (ut.name ≠ tag → get_alias aliasIndex tagShow tag = tag) := by
  constructor
  · intro heq
    subst heq
    simp [get_alias, h]
  · intro hne
    have : ¬(tag = ut.name) := fun hc => hne hc.symm
    simp [get_alias, h, this]

/-- Witness for C9: a tag whose first record is canonical resolves through
the second lookup, and a tag whose first record differs is returned
unchanged. -/
theorem C9_get_alias_w :
    get_alias (fun _ => [⟨7, "t"⟩]) (fun _ => "rep") "t" = "rep" ∧
    get_alias (fun _ => [⟨7, "s"⟩]) (fun _ => "rep") "t" = "t" :=
  ⟨(C9_get_alias (fun _ => [⟨7, "t"⟩]) (fun _ => "rep") "t" ⟨7, "t"⟩ []
      rfl).1 rfl,
   (C9_get_alias (fun _ => [⟨7, "s"⟩]) (fun _ => "rep") "t" ⟨7, "s"⟩ []
      rfl).2 (by decide)⟩

/-! ## C10 — counters partition the candidates -/

/-- Each step of the per-item loop increments exactly one of the five
counters, and extends the download list exactly when the increment is on
`will_download`. -/
theorem processItem_partition (capacity : Nat) (line : String) (n : Nat)
    (extra bl : List String) (dir : String) (isFile : String → Bool)
    (sf : String → Post → String) (items : List Post) :
    ∀ st : GroupState,
      ((items.foldl (processItem capacity line n extra bl dir isFile sf)
          st).will_download +
        (items.foldl (processItem capacity line n extra bl dir isFile sf)
          st).links_missing_tags +
        (items.foldl (processItem capacity line n extra bl dir isFile sf)
          st).links_blacklisted +
        (items.foldl (processItem capacity line n extra bl dir isFile sf)
          st).links_on_disk +
        (items.foldl (processItem capacity line n extra bl dir isFile sf)
          st).links_in_cache)
        = (st.will_download + st.links_missing_tags + st.links_blacklisted +
            st.links_on_disk + st.links_in_cache) + items.length ∧
      (items.foldl (processItem capacity line n extra bl dir isFile sf)
          st).url_and_name_list.length + st.will_download
        = st.url_and_name_list.length +
          (items.foldl (processItem capacity line n extra bl dir isFile sf)
            st).will_download := by
  induction items with
  | nil => intro st; simp
  | cons item rest ih =>
    intro st
    have hstep :
        ((processItem capacity line n extra bl dir isFile sf st
            item).will_download +
          (processItem capacity line n extra bl dir isFile sf st
            item).links_missing_tags +
          (processItem capacity line n extra bl dir isFile sf st
            item).links_blacklisted +
          (processItem capacity line n extra bl dir isFile sf st
            item).links_on_disk +
          (processItem capacity line n extra bl dir isFile sf st
            item).links_in_cache)
          = (st.will_download + st.links_missing_tags + st.links_blacklisted +
              st.links_on_disk + st.links_in_cache) + 1 ∧
        (processItem capacity line n extra bl dir isFile sf st
            item).url_and_name_list.length + st.will_download
          = st.url_and_name_list.length +
            (processItem capacity line n extra bl dir isFile sf st
              item).will_download := by
      rcases hd : filterDecide n extra bl
          (isFile (dir ++ sf line item)) st.cache item with _ | _ | _ | _ | _ <;>
        simp [processItem, hd] <;> omega
    obtain ⟨ha, hb⟩ := hstep
    obtain ⟨ia, ib⟩ := ih (processItem capacity line n extra bl dir isFile sf
      st item)
    have hlen : (item :: rest).length = rest.length + 1 := List.length_cons ..
    constructor <;> rw [List.foldl_cons] <;> omega

/-- C10: for a tag group with at least one accumulated candidate, every
candidate receives exactly one disposition, so the five per-group counters
sum to the number of candidates, and the number of (url, destination) pairs
appended to the global download list equals `will_download`. -/
theorem C10_disposition_partition (env : Env) (capacity maxResults : Nat)
    (aliasedBlacklist : List String) (downloadDir : String)
    (cache : List String) (l0 : List (String × String)) (line : String)
    (hpos : 0 < (accumulate maxResults (env.pages
      (expandGroup (get_alias env.aliasIndex env.tagShow) line).1)).length) :
    (processLine env capacity maxResults aliasedBlacklist downloadDir cache
        l0 line).will_download +
      (processLine env capacity maxResults aliasedBlacklist downloadDir cache
        l0 line).links_missing_tags +
      (processLine env capacity maxResults aliasedBlacklist downloadDir cache
        l0 line).links_blacklisted +
      (processLine env capacity maxResults aliasedBlacklist downloadDir cache
        l0 line).links_on_disk +
      (processLine env capacity maxResults aliasedBlacklist downloadDir cache
        l0 line).links_in_cache
      = (accumulate maxResults (env.pages
          (expandGroup (get_alias env.aliasIndex env.tagShow) line).1)).length ∧
    (processLine env capacity maxResults aliasedBlacklist downloadDir cache
        l0 line).url_and_name_list.length
      = l0.length +
        (processLine env capacity maxResults aliasedBlacklist downloadDir
          cache l0 line).will_download := by
  obtain ⟨h1, h2⟩ := processItem_partition capacity line (pySplit line).length
    (expandGroup (get_alias env.aliasIndex env.tagShow) line).2
    aliasedBlacklist downloadDir env.isFile env.safeFilename
    (accumulate maxResults (env.pages
      (expandGroup (get_alias env.aliasIndex env.tagShow) line).1))
    (initGroupState cache l0)
  constructor
  · simp only [processLine, initGroupState] at h1 ⊢
    simpa using h1
  · simp only [processLine, initGroupState] at h2 ⊢
    omega

/-- A concrete environment for witnesses: one page of two posts, the second
carrying the blacklisted tag `bad`; no file on disk; every download
succeeds. -/
def wEnv : Env where
  aliasIndex := fun t => [⟨1, String.append t "0"⟩]
  tagShow := fun _ => "off"
  pages := fun _ => [[⟨"u1", 1, "m1", "jpg", "a b"⟩,
                      ⟨"u2", 2, "m2", "jpg", "bad c"⟩]]
  isFile := fun _ => false
  safeFilename := fun _ p => String.append p.md5 ".jpg"
  downloadOk := fun _ => true

/-- A concrete configuration for witnesses. -/
def wConfig : Config := ⟨"", 2, 10, 0⟩

/-- Witness for C10: two candidates, one approved and one blacklisted. -/
theorem C10_disposition_partition_w :
    (processLine wEnv 10 50 ["bad"] "" [] [] "a").will_download +
      (processLine wEnv 10 50 ["bad"] "" [] [] "a").links_missing_tags +
      (processLine wEnv 10 50 ["bad"] "" [] [] "a").links_blacklisted +
      (processLine wEnv 10 50 ["bad"] "" [] [] "a").links_on_disk +
      (processLine wEnv 10 50 ["bad"] "" [] [] "a").links_in_cache
      = (accumulate 50 (wEnv.pages
          (expandGroup (get_alias wEnv.aliasIndex wEnv.tagShow) "a").1)).length ∧
    (processLine wEnv 10 50 ["bad"] "" [] [] "a").url_and_name_list.length
      = List.length ([] : List (String × String)) +
        (processLine wEnv 10 50 ["bad"] "" [] [] "a").will_download :=
  C10_disposition_partition wEnv 10 50 ["bad"] "" [] [] "a" (by decide)

/-! ## C5 — cache insertion precedes the download batch -/

/-- A fingerprint just pushed into the bounded cache is a member of it, as
long as the capacity is positive. -/
theorem mem_cachePush_self (capacity : Nat) (c : List String) (fp : String)
    (h : 0 < capacity) : fp ∈ cachePush capacity c fp := by
  by_cases hlt : capacity < (c ++ [fp]).length
  · have hlt' : capacity < c.length + 1 := by simpa using hlt
    have hdrop : cachePush capacity c fp =
        (c ++ [fp]).drop ((c ++ [fp]).length - capacity) := by
      simp [cachePush, hlt']
    rw [hdrop, List.drop_append_eq_append_drop]
    have hk : (c ++ [fp]).length - capacity - c.length = 0 := by
      simp only [List.length_append, List.length_cons, List.length_nil]
      omega
    rw [hk]
    simp
  · have hlt' : ¬(capacity < c.length + 1) := by simpa using hlt
    have : cachePush capacity c fp = c ++ [fp] := by simp [cachePush, hlt']
    rw [this]
    simp

/-- C5: an approved item's task is appended to the download list and its md5
fingerprint is pushed into the cache immediately, at approval time; a
non-approved item touches neither; and the download batch is invoked only
after the whole update, on exactly the accumulated list — so every download
started belongs to an item whose fingerprint was inserted beforehand. -/
theorem C5_cache_before_download (capacity : Nat) (line : String) (n : Nat)
    (extra bl : List String) (dir : String) (isFile : String → Bool)
    (sf : String → Post → String) (st : GroupState) (item : Post)
    (env : Env) (config : Config) (maxResults : Nat)
    (blacklist : List String) (cache0 : List String)
    (tagLines : List String) (today : Int)
    (hcap : 0 < capacity)
    (happ : filterDecide n extra bl (isFile (dir ++ sf line item)) st.cache
      item = .approved) :
    ((processItem capacity line n extra bl dir isFile sf st
        item).url_and_name_list
      = st.url_and_name_list ++ [(item.url, dir ++ sf line item)] ∧
     (processItem capacity line n extra bl dir isFile sf st item).cache
      = cachePush capacity st.cache item.md5 ∧
     item.md5 ∈ (processItem capacity line n extra bl dir isFile sf st
        item).cache) ∧
    (∀ st2 : GroupState,
      filterDecide n extra bl (isFile (dir ++ sf line item)) st2.cache item
          ≠ .approved →
      (processItem capacity line n extra bl dir isFile sf st2
          item).url_and_name_list = st2.url_and_name_list ∧
      (processItem capacity line n extra bl dir isFile sf st2 item).cache
        = st2.cache) ∧
    ((runSession env config maxResults blacklist cache0 tagLines
        today).downloadsStarted
      = (runUpdate env config.cache_size maxResults
          (blacklist.map (get_alias env.aliasIndex env.tagShow))
          config.download_directory cache0 tagLines).2 ∧
     (runSession env config maxResults blacklist cache0 tagLines
        today).outcomes
      = multi_download env.downloadOk
          (runSession env config maxResults blacklist cache0 tagLines
            today).downloadsStarted) := by
  refine ⟨?_, ?_, rfl, rfl⟩
  · refine ⟨?_, ?_, ?_⟩
    · simp [processItem, happ]
    · simp [processItem, happ]
    · have hc : (processItem capacity line n extra bl dir isFile sf st
          item).cache = cachePush capacity st.cache item.md5 := by
        simp [processItem, happ]
      rw [hc]
      exact mem_cachePush_self capacity st.cache item.md5 hcap
  · intro st2 hne
    rcases hd : filterDecide n extra bl (isFile (dir ++ sf line item))
        st2.cache item with _ | _ | _ | _ | _ <;>
      simp_all [processItem]

/-- Witness for C5: a single approved item lands in the download list with
its fingerprint cached at once. -/
theorem C5_cache_before_download_w :
    ("m" : String) ∈ (processItem 1 "a" 1 [] [] "" (fun _ => false)
      (fun _ p => p.md5) (initGroupState [] [])
      ⟨"u", 1, "m", "e", "a"⟩).cache :=
  ((C5_cache_before_download 1 "a" 1 [] [] "" (fun _ => false)
      (fun _ p => p.md5) (initGroupState [] []) ⟨"u", 1, "m", "e", "a"⟩
      wEnv wConfig 50 [] [] [] 0 (by decide) (by decide)).1).2.2

/-! ## C6 — watermark advance -/

/-- C6: a session that reaches wrap-up at wall-clock date `D` persists
`last_run = D - 1` (one day before today, on date ordinals), whatever the
tag file, the remote contents and the per-task download outcomes — in
particular even when some or all downloads in the batch fail. -/
theorem C6_watermark_advance (env : Env) (config : Config) (maxResults : Nat)
    (blacklist : List String) (cache0 : List String)
    (tagLines : List String) (today : Int) :
    (runSession env config maxResults blacklist cache0 tagLines
        today).config.last_run = today - 1 ∧
    (runSession { env with downloadOk := fun _ => false } config maxResults
        blacklist cache0 tagLines today).config.last_run = today - 1 :=
  ⟨rfl, rfl⟩

end E621dl
